import Mathlib

/-!
Verification of the setraf-auth credential and session model.

Shallow embedding of the code in src/models/User.js, src/models/Session.js
and src/routes/users.js.  Times are modelled as natural numbers
(milliseconds since the epoch, the value of Date.now in the source).
The bcryptjs password hasher and the persistence engine are external
collaborators of the repository; they are modelled symbolically from the
spec contracts, as noted on each such definition.
-/

namespace SetrafAuth

/-- Symbolic model of the stored password field.  In the source this is a
string that holds either the plaintext (before the save hook runs) or a
bcrypt hash.  Modelled from the spec: the Password Hasher of section 4.1 is
the external bcryptjs library, absent from src/; a bcrypt hash is modelled
as a tagged term carrying its cost factor, salt and hashed input, distinct
by construction from any plaintext string. -/
inductive StoredPw where
  | plain (s : String)
  | hashed (cost : Nat) (salt : String) (input : String)
deriving DecidableEq

/-- The string content of the stored password field, as bcrypt would read
it back: a plaintext is the string itself, a hash serialises in the bcrypt
dollar-delimited format. -/
def StoredPw.serialize : StoredPw → String
  | .plain s => s
  | .hashed cost salt input => "$2a$" ++ toString cost ++ "$" ++ salt ++ input

/-- True when the stored field holds a well-formed bcrypt hash; a raw
plaintext string is a malformed hash. -/
def StoredPw.isWellFormedHash : StoredPw → Bool
  | .plain _ => false
  | .hashed _ _ _ => true

/-- Modelled from the spec: bcrypt.genSalt and bcrypt.hash of bcryptjs
(Password Hasher, section 4.1): a salted one-way function; the result is a
hash term, never the plaintext. -/
def bcryptHash (cost : Nat) (salt : String) (input : String) : StoredPw :=
  .hashed cost salt input

/-- Modelled from the spec: bcrypt.compare of bcryptjs (Password Hasher,
section 4.1): verification against a malformed hash is a non-match, not an
exception; against a well-formed hash it matches exactly when the candidate
equals the hashed input (ideal collision-free comparison). -/
def bcryptCompare (candidate : String) (stored : StoredPw) : Bool :=
  match stored with
  | .plain _ => false
  | .hashed _ _ input => candidate == input

/-- The Credential Record: the fields of userSchema in src/models/User.js.
Optional schema fields (no required flag, no default) are Option valued;
the id field is the document identifier added by the persistence engine.
Defaults mirror the schema defaults. -/
structure UserRecord where
  id : Nat
  username : String
  email : String
  password : StoredPw
  firstName : Option String := none
  lastName : Option String := none
  role : String := "user"
  isActive : Bool := true
  emailVerified : Bool := false
  verificationToken : Option String := none
  resetPasswordToken : Option String := none
  resetPasswordExpires : Option Nat := none
  otpCode : Option String := none
  otpExpires : Option Nat := none
  lastLogin : Option Nat := none
  loginAttempts : Nat := 0
  loginCount : Nat := 0
  lockUntil : Option Nat := none
  organization : Option String := none
  country : Option String := none
  accessCount : Nat := 0
  lastAccessIp : Option String := none
deriving DecidableEq

/-- The virtual isLocked of userSchema: true when lockUntil is set and
lockUntil is strictly greater than now. -/
def isLocked (u : UserRecord) (now : Nat) : Bool :=
  match u.lockUntil with
  | some t => decide (t > now)
  | none => false

/-- The guard of the first branch of incLoginAttempts: lockUntil is set and
strictly in the past. -/
def lockExpired (u : UserRecord) (now : Nat) : Bool :=
  match u.lockUntil with
  | some t => decide (t < now)
  | none => false

/-- comparePassword of userSchema: delegates to bcrypt.compare on the
stored password field. -/
def comparePassword (u : UserRecord) (candidate : String) : Bool :=
  bcryptCompare candidate u.password

/-- An updateOne document over the fields touched by the user model:
the set, unset and inc operators that incLoginAttempts and
resetLoginAttempts build in src/models/User.js. -/
structure UpdateDoc where
  setLoginAttempts : Option Nat := none
  setLastLogin : Option Nat := none
  setLockUntil : Option Nat := none
  unsetLockUntil : Bool := false
  incLoginAttemptsBy : Nat := 0
  incAccessCountBy : Nat := 0
deriving DecidableEq

/-- Modelled from the spec: the persistence engine contract of section 6 —
updateOne applies an update document atomically to the stored record, with
inc as a relative increment and set and unset as field writes. -/
def applyUpdate (u : UserRecord) (d : UpdateDoc) : UserRecord :=
  { u with
    loginAttempts := (d.setLoginAttempts.getD u.loginAttempts) + d.incLoginAttemptsBy
    lastLogin :=
      match d.setLastLogin with
      | some t => some t
      | none => u.lastLogin
    lockUntil :=
      if d.unsetLockUntil then none
      else
        match d.setLockUntil with
        | some t => some t
        | none => u.lockUntil
    accessCount := u.accessCount + d.incAccessCountBy }

/-- maxAttempts in incLoginAttempts. -/
def maxAttempts : Nat := 5

/-- lockTime in incLoginAttempts: two hours in milliseconds. -/
def lockTime : Nat := 2 * 60 * 60 * 1000

/-- The update document built by incLoginAttempts in src/models/User.js:
if the lock has expired, set loginAttempts to 1 and unset lockUntil;
otherwise increment loginAttempts, and also set lockUntil to now plus
lockTime when the incremented count reaches maxAttempts and the record is
not currently locked. -/
def incLoginAttemptsDoc (u : UserRecord) (now : Nat) : UpdateDoc :=
  if lockExpired u now then
    { setLoginAttempts := some 1, unsetLockUntil := true }
  else if u.loginAttempts + 1 ≥ maxAttempts && !(isLocked u now) then
    { incLoginAttemptsBy := 1, setLockUntil := some (now + lockTime) }
  else
    { incLoginAttemptsBy := 1 }

/-- incLoginAttempts of userSchema: build the update document from the
current document snapshot and apply it. -/
def incLoginAttempts (u : UserRecord) (now : Nat) : UserRecord :=
  applyUpdate u (incLoginAttemptsDoc u now)

/-- The update document built by resetLoginAttempts in src/models/User.js. -/
def resetLoginAttemptsDoc (now : Nat) : UpdateDoc :=
  { setLoginAttempts := some 0, setLastLogin := some now,
    unsetLockUntil := true, incAccessCountBy := 1 }

/-- resetLoginAttempts of userSchema. -/
def resetLoginAttempts (u : UserRecord) (now : Nat) : UserRecord :=
  applyUpdate u (resetLoginAttemptsDoc now)

/-- The pre-save hook of userSchema: when the password path was modified in
this save, replace the stored password with its bcrypt hash at cost factor
10 under a fresh salt; otherwise leave the record untouched.  The
passwordModified argument is the value of isModified applied to the
password path, and salt is the fresh salt from bcrypt.genSalt. -/
def preSave (u : UserRecord) (passwordModified : Bool) (salt : String) : UserRecord :=
  if passwordModified then
    { u with password := bcryptHash 10 salt u.password.serialize }
  else u

/-- A JSON field value in the serialised document. -/
inductive JSValue where
  | str (s : String)
  | num (n : Nat)
  | boolean (b : Bool)
deriving DecidableEq

/-- An optional field of the serialised document: present exactly when the
underlying schema field is set. -/
def optField (k : String) (v : Option JSValue) : List (String × JSValue) :=
  match v with
  | some x => [(k, x)]
  | none => []

/-- toObject of a mongoose document: the key-value serialisation of every
stored field; fields that are unset are absent from the object.  Dates
serialise as their millisecond value. -/
def toObject (u : UserRecord) : List (String × JSValue) :=
  [("_id", .num u.id), ("username", .str u.username), ("email", .str u.email),
   ("password", .str u.password.serialize)] ++
  optField "firstName" (u.firstName.map .str) ++
  optField "lastName" (u.lastName.map .str) ++
  [("role", .str u.role), ("isActive", .boolean u.isActive),
   ("emailVerified", .boolean u.emailVerified)] ++
  optField "verificationToken" (u.verificationToken.map .str) ++
  optField "resetPasswordToken" (u.resetPasswordToken.map .str) ++
  optField "resetPasswordExpires" (u.resetPasswordExpires.map .num) ++
  optField "otpCode" (u.otpCode.map .str) ++
  optField "otpExpires" (u.otpExpires.map .num) ++
  optField "lastLogin" (u.lastLogin.map .num) ++
  [("loginAttempts", .num u.loginAttempts), ("loginCount", .num u.loginCount)] ++
  optField "lockUntil" (u.lockUntil.map .num) ++
  optField "organization" (u.organization.map .str) ++
  optField "country" (u.country.map .str) ++
  [("accessCount", .num u.accessCount)] ++
  optField "lastAccessIp" (u.lastAccessIp.map .str)

/-- The JavaScript delete operator on a serialised object: removes the
named key. -/
def deleteKey (k : String) (l : List (String × JSValue)) : List (String × JSValue) :=
  l.filter (fun p => p.1 != k)

/-- toJSON of userSchema in src/models/User.js: toObject followed by
delete of password, verificationToken, resetPasswordToken,
resetPasswordExpires, loginAttempts and lockUntil. -/
def toJSON (u : UserRecord) : List (String × JSValue) :=
  deleteKey "lockUntil" (deleteKey "loginAttempts"
    (deleteKey "resetPasswordExpires" (deleteKey "resetPasswordToken"
      (deleteKey "verificationToken" (deleteKey "password" (toObject u))))))

/-- The request body of PUT /api/users/profile in src/routes/users.js:
each field is present (some) exactly when the JSON body carries it. -/
structure ProfileBody where
  firstName : Option String := none
  lastName : Option String := none
  organization : Option String := none
  country : Option String := none
deriving DecidableEq

/-- The field assignments of the PUT /profile handler: each profile field
is overwritten exactly when the body carries it. -/
def applyProfileBody (u : UserRecord) (b : ProfileBody) : UserRecord :=
  { u with
    firstName :=
      match b.firstName with
      | some s => some s
      | none => u.firstName
    lastName :=
      match b.lastName with
      | some s => some s
      | none => u.lastName
    organization :=
      match b.organization with
      | some s => some s
      | none => u.organization
    country :=
      match b.country with
      | some s => some s
      | none => u.country }

/-- The PUT /profile handler on a found user: assign the present body
fields, then save.  The handler never assigns the password path, so the
pre-save hook sees the password as unmodified; the salt argument of the
hook is therefore irrelevant and passed empty. -/
def updateProfile (u : UserRecord) (b : ProfileBody) : UserRecord :=
  preSave (applyProfileBody u b) false ""

/-- The DELETE /profile handler on a found user: set isActive to false and
save.  The handler never assigns the password path, so the pre-save hook
sees the password as unmodified. -/
def deactivate (u : UserRecord) : UserRecord :=
  preSave { u with isActive := false } false ""

/-- findById followed by save of the modified document: replace the first
record carrying the identifier, leave every other record as it is; when no
record matches, the handler answers 404 and the store is unchanged. -/
def updateById (store : List UserRecord) (uid : Nat) (f : UserRecord → UserRecord) :
    List UserRecord :=
  match store with
  | [] => []
  | u :: rest => if u.id == uid then f u :: rest else u :: updateById rest uid f

/-- The store-level effect of the DELETE /profile handler. -/
def deleteProfile (store : List UserRecord) (uid : Nat) : List UserRecord :=
  updateById store uid deactivate

/-- A Session Record: the fields of sessionSchema in src/models/Session.js. -/
structure SessionRecord where
  userId : Nat
  refreshToken : String
  ipAddress : String
  userAgent : Option String := none
  isValid : Bool := true
  expiresAt : Nat
deriving DecidableEq

/-- Result of inserting a Session Record. -/
inductive CreateResult where
  | ok (store : List SessionRecord)
  | conflict
deriving DecidableEq

/-- Modelled from the spec: the unique index on refreshToken declared in
src/models/Session.js is enforced by the persistence engine (sections 4.4
and 6), which is external to the repository; inserting a record whose
refreshToken is already stored raises a conflict error and leaves the
store unchanged, otherwise the record is appended. -/
def createSession (store : List SessionRecord) (s : SessionRecord) : CreateResult :=
  if store.any (fun r => r.refreshToken == s.refreshToken) then .conflict
  else .ok (store ++ [s])

/-- Invalidation of the sessions carrying a token: clears the validity
flag and touches nothing else. -/
def invalidateSession (store : List SessionRecord) (token : String) :
    List SessionRecord :=
  store.map (fun r => if r.refreshToken == token then { r with isValid := false } else r)

/-- The TTL sweep of the persistence engine: physically removes the
records whose expiresAt has passed. -/
def removeExpired (store : List SessionRecord) (now : Nat) : List SessionRecord :=
  store.filter (fun r => decide (now < r.expiresAt))

/-- The reachable states of the Session Store: empty at startup, then
closed under successful creation, invalidation and the TTL sweep. -/
inductive Reachable : List SessionRecord → Prop where
  | empty : Reachable []
  | create (store : List SessionRecord) (s : SessionRecord)
      (store' : List SessionRecord) :
      Reachable store → createSession store s = .ok store' → Reachable store'
  | invalidate (store : List SessionRecord) (token : String) :
      Reachable store → Reachable (invalidateSession store token)
  | sweep (store : List SessionRecord) (now : Nat) :
      Reachable store → Reachable (removeExpired store now)

/-! ## Helper lemmas -/

theorem applyUpdate_loginAttempts (u : UserRecord) (d : UpdateDoc) :
    (applyUpdate u d).loginAttempts =
      d.setLoginAttempts.getD u.loginAttempts + d.incLoginAttemptsBy := rfl

/-- Characterisation of one failed-login update in terms of the resulting
record: the expired-lock branch resets the counter and clears the lock;
the other branch increments the counter and sets the lock exactly when the
incremented count reaches maxAttempts on an unlocked record. -/
theorem incLoginAttempts_eq (u : UserRecord) (now : Nat) :
    incLoginAttempts u now =
      if lockExpired u now then { u with loginAttempts := 1, lockUntil := none }
      else
        { u with
          loginAttempts := u.loginAttempts + 1,
          lockUntil :=
            if u.loginAttempts + 1 ≥ maxAttempts ∧ isLocked u now = false then
              some (now + lockTime)
            else u.lockUntil } := by
  unfold incLoginAttempts incLoginAttemptsDoc
  by_cases h1 : lockExpired u now
  · simp [h1, applyUpdate]
  · by_cases h2 : u.loginAttempts + 1 ≥ maxAttempts ∧ isLocked u now = false
    · simp [h1, h2, applyUpdate, h2.1, h2.2]
    · have h2b : (decide (u.loginAttempts + 1 ≥ maxAttempts) && !(isLocked u now)) = false := by
        rcases Decidable.not_and_iff_or_not.mp h2 with h | h
        · simp [h]
        · have hb : isLocked u now = true := by
            cases hv : isLocked u now
            · exact absurd hv h
            · rfl
          simp [hb]
      simp [h1, h2, h2b, applyUpdate]

/-- Five consecutive applications of the failure branch, the last one at
the fifth time argument. -/
def afterFiveFailures (u : UserRecord) (t1 t2 t3 t4 t5 : Nat) : UserRecord :=
  incLoginAttempts (incLoginAttempts (incLoginAttempts
    (incLoginAttempts (incLoginAttempts u t1) t2) t3) t4) t5

/-! ## Claim theorems -/

/-- Claim C1: starting unlocked with loginAttempts zero, five consecutive
failed-login updates, the last at time t, leave the counter at five and set
lockUntil to t plus two hours; thereafter the record is locked at every
instant strictly before lockUntil and unlocked at every instant from
lockUntil on. -/
theorem five_failures_lock (u : UserRecord) (t1 t2 t3 t4 t : Nat)
    (h0 : u.loginAttempts = 0) (h1 : u.lockUntil = none) :
    (afterFiveFailures u t1 t2 t3 t4 t).loginAttempts = 5 ∧
    (afterFiveFailures u t1 t2 t3 t4 t).lockUntil = some (t + lockTime) ∧
    (∀ now, now < t + lockTime →
      isLocked (afterFiveFailures u t1 t2 t3 t4 t) now = true) ∧
    (∀ now, t + lockTime ≤ now →
      isLocked (afterFiveFailures u t1 t2 t3 t4 t) now = false) := by
  obtain ⟨uid, un, em, pw, fn, ln, ro, ia, ev, vt, rt, re, oc, oe, ll, la, lc, lu, og, co, ac, ip⟩ := u
  dsimp only at h0 h1
  subst h0; subst h1
  refine ⟨?_, ?_, ?_, ?_⟩ <;>
    simp [afterFiveFailures, incLoginAttempts, incLoginAttemptsDoc, applyUpdate,
      lockExpired, isLocked, maxAttempts, lockTime]

/-- Concrete instance of Claim C1 at a sample record. -/
def uAlice : UserRecord :=
  { id := 1, username := "alice", email := "alice@x.com",
    password := .hashed 10 "salt" "Passw0rd" }

/-- Witness for Claim C1: the hypotheses hold at the sample record and the
conclusions evaluate there. -/
theorem five_failures_lock_witness :
    uAlice.loginAttempts = 0 ∧ uAlice.lockUntil = none ∧
    (afterFiveFailures uAlice 1 2 3 4 100).loginAttempts = 5 ∧
    (afterFiveFailures uAlice 1 2 3 4 100).lockUntil = some (100 + lockTime) ∧
    isLocked (afterFiveFailures uAlice 1 2 3 4 100) 100 = true ∧
    isLocked (afterFiveFailures uAlice 1 2 3 4 100) (100 + lockTime) = false := by
  have h := five_failures_lock uAlice 1 2 3 4 100 rfl rfl
  exact ⟨rfl, rfl, h.1, h.2.1, h.2.2.1 100 (by decide), h.2.2.2 (100 + lockTime) (Nat.le_refl _)⟩

/-- Claim C2: one application of the failure branch of the Lockout Policy:
if lockUntil is set and in the past, it sets loginAttempts to 1 and clears
lockUntil; otherwise it increments loginAttempts by 1 and sets lockUntil to
now plus two hours exactly when the incremented count reaches maxAttempts
(five) and the record is not already locked. -/
theorem incLoginAttempts_spec (u : UserRecord) (now : Nat) :
    incLoginAttempts u now =
      if lockExpired u now then { u with loginAttempts := 1, lockUntil := none }
      else
        { u with
          loginAttempts := u.loginAttempts + 1,
          lockUntil :=
            if u.loginAttempts + 1 ≥ 5 ∧ isLocked u now = false then
              some (now + 2 * 60 * 60 * 1000)
            else u.lockUntil } :=
  incLoginAttempts_eq u now

/-- Claim C3: the success branch of the Lockout Policy sets loginAttempts
to 0, clears lockUntil, sets lastLogin to the current time and increments
accessCount by exactly 1. -/
theorem resetLoginAttempts_spec (u : UserRecord) (now : Nat) :
    resetLoginAttempts u now =
      { u with
        loginAttempts := 0, lockUntil := none, lastLogin := some now,
        accessCount := u.accessCount + 1 } := rfl

/-- Claim C4: password verification is Bool valued by its type, and on a
stored value that is not a well-formed bcrypt hash it answers false, a
non-match, rather than raising an exception. -/
theorem comparePassword_malformed_nonmatch (u : UserRecord) (candidate : String)
    (h : u.password.isWellFormedHash = false) :
    comparePassword u candidate = false := by
  unfold comparePassword bcryptCompare
  cases hp : u.password with
  | plain s => rfl
  | hashed c s i =>
      rw [hp] at h
      simp [StoredPw.isWellFormedHash] at h

/-- Sample record whose stored password field is not a well-formed hash. -/
def uRawPassword : UserRecord :=
  { id := 2, username := "bob", email := "bob@x.com",
    password := .plain "hunter2" }

/-- Witness for Claim C4: the hypothesis holds at the sample record and
verification answers false there. -/
theorem comparePassword_malformed_nonmatch_witness :
    uRawPassword.password.isWellFormedHash = false ∧
    comparePassword uRawPassword "hunter2" = false :=
  ⟨rfl, comparePassword_malformed_nonmatch uRawPassword "hunter2" rfl⟩

/-- Sample record with a live OTP code and expiry. -/
def uWithOtp : UserRecord :=
  { id := 3, username := "carol", email := "carol@x.com",
    password := .hashed 10 "s0" "Secr3t",
    otpCode := some "123456", otpExpires := some 99000 }

/-- Claim C5, evaluated at a failing input: on a record with a live OTP
code, toJSON strips the password, the verification token, the reset token
and expiry, the attempt counter and the lock timestamp, yet retains both
otpCode and otpExpires — the public projection exposes the OTP pair the
claim says it excludes. -/
theorem toJSON_retains_otp :
    ((toJSON uWithOtp).any (fun p => p.1 == "otpCode")) = true ∧
    ((toJSON uWithOtp).any (fun p => p.1 == "otpExpires")) = true ∧
    ((toJSON uWithOtp).any (fun p => p.1 == "password")) = false ∧
    ((toJSON uWithOtp).any (fun p => p.1 == "verificationToken")) = false ∧
    ((toJSON uWithOtp).any (fun p => p.1 == "resetPasswordToken")) = false ∧
    ((toJSON uWithOtp).any (fun p => p.1 == "resetPasswordExpires")) = false ∧
    ((toJSON uWithOtp).any (fun p => p.1 == "loginAttempts")) = false ∧
    ((toJSON uWithOtp).any (fun p => p.1 == "lockUntil")) = false := by
  decide

/-- Claim C6: on save, the stored password is replaced by the bcrypt hash
at cost factor 10 under the fresh salt exactly when the password path was
modified; an unmodified save leaves the whole record, hence the stored
hash, untouched; and the stored value after a modifying save is a
well-formed hash, never the plaintext, a shape every save preserves. -/
theorem preSave_spec (u : UserRecord) (salt : String) (m : Bool) :
    preSave u true salt = { u with password := bcryptHash 10 salt u.password.serialize } ∧
    (preSave u true salt).password.isWellFormedHash = true ∧
    preSave u false salt = u ∧
    (u.password.isWellFormedHash = true →
      (preSave u m salt).password.isWellFormedHash = true) := by
  refine ⟨rfl, rfl, rfl, ?_⟩
  intro h
  cases m
  · exact h
  · rfl

/-- Witness for Claim C6: the hypothesis of the preservation conjunct holds
at a sample record already carrying a hash, and the conclusion evaluates
there. -/
theorem preSave_spec_witness :
    uWithOtp.password.isWellFormedHash = true ∧
    (preSave uWithOtp true "s9").password.isWellFormedHash = true :=
  ⟨rfl, (preSave_spec uWithOtp "s9" true).2.2.2 rfl⟩

theorem invalidateSession_tokens (store : List SessionRecord) (token : String) :
    (invalidateSession store token).map (fun r => r.refreshToken) =
      store.map (fun r => r.refreshToken) := by
  induction store with
  | nil => rfl
  | cons a l ih =>
      simp only [invalidateSession, List.map_cons] at ih ⊢
      have h1 : ((if (a.refreshToken == token) = true then
          { a with isValid := false } else a)).refreshToken = a.refreshToken := by
        by_cases h : a.refreshToken = token <;> simp [h]
      rw [h1, ih]

theorem createSession_ok_inv (store : List SessionRecord) (s : SessionRecord)
    (store' : List SessionRecord) (h : createSession store s = .ok store') :
    store' = store ++ [s] ∧
    (store.any (fun r => r.refreshToken == s.refreshToken)) = false := by
  by_cases hc : (store.any (fun r => r.refreshToken == s.refreshToken)) = true
  · simp [createSession, hc] at h
  · have hc' : (store.any (fun r => r.refreshToken == s.refreshToken)) = false := by
      cases hv : store.any (fun r => r.refreshToken == s.refreshToken)
      · rfl
      · exact absurd hv hc
    simp [createSession, hc'] at h
    exact ⟨h.symm, hc'⟩

/-- Claim C7: at every reachable Session Store state the refresh-token
values are pairwise distinct, and inserting a record whose refresh token is
already stored answers a conflict instead of overwriting or duplicating. -/
theorem session_token_unique (store : List SessionRecord) (s : SessionRecord)
    (h : Reachable store) :
    (store.map (fun r => r.refreshToken)).Nodup ∧
    ((store.any (fun r => r.refreshToken == s.refreshToken)) = true →
      createSession store s = .conflict) := by
  constructor
  · induction h with
    | empty => simp
    | create st s0 st' hr hok ih =>
        obtain ⟨rfl, hany⟩ := createSession_ok_inv st s0 st' hok
        rw [List.map_append]
        refine List.Nodup.append ih (by simp) ?_
        intro a ha hb
        simp at hb
        subst hb
        rw [List.any_eq_false] at hany
        simp at ha
        obtain ⟨r, hr0, hr1⟩ := ha
        exact absurd hr1 (by simpa using hany r hr0)
    | invalidate st token hr ih => rw [invalidateSession_tokens]; exact ih
    | sweep st now hr ih =>
        exact List.Nodup.sublist
          (List.Sublist.map _ (List.filter_sublist st)) ih
  · intro hdup
    simp [createSession, hdup]

/-- Sample session record. -/
def sessA : SessionRecord :=
  { userId := 1, refreshToken := "r1", ipAddress := "127.0.0.1", expiresAt := 5000 }

/-- Witness for Claim C7: the singleton store holding the sample session is
reachable, its tokens are pairwise distinct, and creating a second record
with the same refresh token answers a conflict. -/
theorem session_token_unique_witness :
    ([sessA].map (fun r => r.refreshToken)).Nodup ∧
    createSession [sessA] sessA = .conflict := by
  have hreach : Reachable [sessA] :=
    Reachable.create [] sessA [sessA] Reachable.empty rfl
  have h := session_token_unique [sessA] sessA hreach
  exact ⟨h.1, h.2 (by decide)⟩

theorem updateById_length (store : List UserRecord) (uid : Nat)
    (f : UserRecord → UserRecord) :
    (updateById store uid f).length = store.length := by
  induction store with
  | nil => rfl
  | cons a l ih =>
      simp only [updateById]
      split <;> simp [ih]

/-- Claim C8: the delete-account operation keeps every record in storage —
the store keeps its length — and its effect on the found record is exactly
clearing the isActive flag: the saved record agrees with the old one on
every other field, the pre-save hook touching nothing because the password
path is unmodified. -/
theorem deleteProfile_soft (store : List UserRecord) (uid : Nat) (u : UserRecord) :
    (deleteProfile store uid).length = store.length ∧
    deleteProfile store uid =
      updateById store uid (fun v => { v with isActive := false }) ∧
    deactivate u = { u with isActive := false } :=
  ⟨updateById_length store uid deactivate, rfl, rfl⟩

/-- Claim C9: the failure branch issues a relative atomic increment — its
update document carries an inc of 1 on loginAttempts and no absolute set of
the counter — so two concurrent failed attempts, each building its document
from the same stored snapshot, leave the counter two higher than the
snapshot under either application order: neither update is lost. -/
theorem concurrent_increments_not_lost (u : UserRecord) (t1 t2 : Nat)
    (h : u.lockUntil = none) :
    (incLoginAttemptsDoc u t1).setLoginAttempts = none ∧
    (incLoginAttemptsDoc u t1).incLoginAttemptsBy = 1 ∧
    (applyUpdate (applyUpdate u (incLoginAttemptsDoc u t1))
        (incLoginAttemptsDoc u t2)).loginAttempts = u.loginAttempts + 2 ∧
    (applyUpdate (applyUpdate u (incLoginAttemptsDoc u t2))
        (incLoginAttemptsDoc u t1)).loginAttempts = u.loginAttempts + 2 := by
  have hdoc : ∀ t : Nat, (incLoginAttemptsDoc u t).setLoginAttempts = none ∧
      (incLoginAttemptsDoc u t).incLoginAttemptsBy = 1 := by
    intro t
    have hexp : lockExpired u t = false := by simp [lockExpired, h]
    unfold incLoginAttemptsDoc
    rw [if_neg (by simp [hexp])]
    split <;> exact ⟨rfl, rfl⟩
  obtain ⟨ha1, ha2⟩ := hdoc t1
  obtain ⟨hb1, hb2⟩ := hdoc t2
  refine ⟨ha1, ha2, ?_, ?_⟩ <;>
    simp [applyUpdate_loginAttempts, ha1, ha2, hb1, hb2]

/-- Sample record for the concurrent-failure scenario. -/
def uConc : UserRecord :=
  { id := 4, username := "dave", email := "dave@x.com",
    password := .hashed 10 "s1" "pw", loginAttempts := 3 }

/-- Witness for Claim C9: the hypothesis holds at the sample record and
both application orders leave the counter two higher. -/
theorem concurrent_increments_not_lost_witness :
    uConc.lockUntil = none ∧
    (applyUpdate (applyUpdate uConc (incLoginAttemptsDoc uConc 10))
        (incLoginAttemptsDoc uConc 20)).loginAttempts = 5 ∧
    (applyUpdate (applyUpdate uConc (incLoginAttemptsDoc uConc 20))
        (incLoginAttemptsDoc uConc 10)).loginAttempts = 5 := by
  have h := concurrent_increments_not_lost uConc 10 20 rfl
  exact ⟨rfl, h.2.2.1, h.2.2.2⟩

/-- Claim C10: the profile-update operation equals the four explicit field
assignments followed by a save whose hook does nothing, each profile field
overwritten exactly when the body carries it; the password, role, flags,
security counters, lock state, verification artifacts and identity fields
are all unchanged. -/
theorem updateProfile_frame (u : UserRecord) (b : ProfileBody) :
    updateProfile u b = applyProfileBody u b ∧
    (updateProfile u b).password = u.password ∧
    (updateProfile u b).role = u.role ∧
    (updateProfile u b).isActive = u.isActive ∧
    (updateProfile u b).emailVerified = u.emailVerified ∧
    (updateProfile u b).loginAttempts = u.loginAttempts ∧
    (updateProfile u b).lockUntil = u.lockUntil ∧
    (updateProfile u b).verificationToken = u.verificationToken ∧
    (updateProfile u b).resetPasswordToken = u.resetPasswordToken ∧
    (updateProfile u b).resetPasswordExpires = u.resetPasswordExpires ∧
    (updateProfile u b).otpCode = u.otpCode ∧
    (updateProfile u b).otpExpires = u.otpExpires ∧
    (updateProfile u b).lastLogin = u.lastLogin ∧
    (updateProfile u b).loginCount = u.loginCount ∧
    (updateProfile u b).accessCount = u.accessCount ∧
    (updateProfile u b).lastAccessIp = u.lastAccessIp ∧
    (updateProfile u b).username = u.username ∧
    (updateProfile u b).email = u.email ∧
    (updateProfile u b).id = u.id ∧
    (updateProfile u b).firstName =
      (match b.firstName with | some s => some s | none => u.firstName) ∧
    (updateProfile u b).lastName =
      (match b.lastName with | some s => some s | none => u.lastName) ∧
    (updateProfile u b).organization =
      (match b.organization with | some s => some s | none => u.organization) ∧
    (updateProfile u b).country =
      (match b.country with | some s => some s | none => u.country) :=
  ⟨rfl, rfl, rfl, rfl, rfl, rfl, rfl, rfl, rfl, rfl, rfl, rfl,
   rfl, rfl, rfl, rfl, rfl, rfl, rfl, rfl, rfl, rfl, rfl⟩

end SetrafAuth
